import Mathlib

/-
Verification of the DynaMix object lifecycle and retyping engine
(src/object.cpp) against its natural-language specification.

The source file object.cpp is embedded shallowly.  Collaborator types that
object.cpp uses but that are declared in headers outside the supplied unit
(object_type_info, mixin_data_in_object, the allocator interfaces) are
modelled from the specification, as noted in the doc comments below:
  - a composition descriptor (object_type_info) is one canonical value per
    distinct set of mixins, so C++ pointer equality of descriptors is
    modelled as equality of the mixin lists;
  - a storage cell (mixin_data_in_object) has a buffer that is non-null
    exactly when its component is constructed, and back-pointer bytes that
    record the owning object; the cell is modelled as the constructed value
    (an Option Nat) together with the owner address;
  - allocators are modelled by their observable effects, recorded in an
    event trace; copy_construct_mixin fails exactly when the mixin lacks a
    copy constructor (spec section 4.3).

Machine side effects (destructor calls, deallocations, counter updates,
allocator notifications) are recorded as an explicit list of events so that
occurs-exactly-once properties can be stated and proved.
-/

namespace Dynamix

/-- Maximum mixin id sentinel.  Modelled from the spec: the registry reserves
a maximum-id sentinel used by has and get to reject out-of-range ids without
touching descriptor memory.  The configured numeric value is immaterial to
every property proved here. -/
def DYNAMIX_MAX_MIXINS : Nat := 256

/-- Observable side effects of the engine: destructor and constructor calls,
storage traffic, live-counter updates and allocator notifications. -/
inductive Event where
  | alloc_mixin_data
  | dealloc_mixin_data
  | alloc_mixin (id : Nat)
  | dealloc_mixin (id : Nat)
  | construct (id : Nat)
  | copy_construct (id : Nat)
  | copy_assign (id : Nat)
  | destroy (id : Nat)
  | inc_num_objects
  | dec_num_objects
  | inc_num_mixins (id : Nat)
  | dec_num_mixins (id : Nat)
  | release_alloc
  | on_set_to_object
  | on_move
  | on_copy_construct
  deriving DecidableEq, Repr

/-- Per-mixin descriptor (mixin_type_info).  Modelled from the spec: the
function pointers for copy construction and copy assignment may be absent;
presence is modelled as a Boolean.  defaultVal models the value written by
the mixin's default constructor, so that default-constructed state is
observable. -/
structure mixin_type_info where
  id : Nat
  copy_constructor : Bool
  copy_assignment : Bool
  defaultVal : Nat
  deriving DecidableEq, Repr

instance : Inhabited mixin_type_info := ⟨⟨0, false, false, 0⟩⟩

/-- Composition descriptor (object_type_info).  Modelled from the spec: an
immutable ordered list of mixin descriptors (_compact_mixins); the dense
id-to-slot mapping is the position in this list; the null descriptor is the
empty list.  One canonical value exists per distinct composition, so C++
pointer comparison of descriptors is list equality. -/
abbrev object_type_info := List mixin_type_info

/-- object_type_info::has. -/
def type_has : object_type_info → Nat → Bool
  | [], _ => false
  | m :: rest, i => m.id == i || type_has rest i

/-- object_type_info::mixin_index: slot of the given id in the compact mixin
list (the dense id-to-slot mapping of the spec). -/
def mixin_index : object_type_info → Nat → Nat
  | [], _ => 0
  | m :: rest, i => if m.id == i then 0 else mixin_index rest i + 1

/-- Well-formedness of a descriptor: its mixins have pairwise distinct ids
(the spec's dense id-to-slot mapping requires this). -/
def distinct_ids : object_type_info → Bool
  | [] => true
  | m :: rest => !type_has rest m.id && distinct_ids rest

/-- Well-formedness of a descriptor: all ids are below the registry's
maximum-id sentinel. -/
def ids_bounded : object_type_info → Bool
  | [] => true
  | m :: rest => decide (m.id < DYNAMIX_MAX_MIXINS) && ids_bounded rest

/-- Storage cell (mixin_data_in_object).  buffer is some value exactly when
the component is constructed (the spec's cell invariant); owner models the
back-pointer bytes preceding the mixin data. -/
structure mixin_data_in_object where
  buffer : Option Nat
  owner : Nat
  deriving DecidableEq, Repr

/-- A cleared cell (mixin_data_in_object::clear / zero-initialized array). -/
def mixin_data_in_object.empty : mixin_data_in_object := ⟨none, 0⟩

/-- The object (object.hpp data members used by object.cpp): composition
descriptor pointer, storage-cell array pointer, the default message
implementation binding, and the optional external allocator.  mixin_data is
none when the object points at the shared null_mixin_data sentinel.  addr
models the object's address (used for the self-assignment check and for
back-pointers). -/
structure object where
  addr : Nat
  type_info : object_type_info
  mixin_data : Option (List mixin_data_in_object)
  default_impl : Option Nat
  allocator : Option Nat
  deriving DecidableEq, Repr

/-- object::empty (object.cpp:136). -/
def object.empty (o : object) : Bool := o.type_info.isEmpty

/-- object::has(mixin_id) (object.cpp:287). -/
def object.has (o : object) (id : Nat) : Bool :=
  if DYNAMIX_MAX_MIXINS ≤ id then false
  else type_has o.type_info id

/-- object::get(mixin_id) (object.cpp:299).  Returns the constructed value of
the mixin or none for a null pointer.  For an id the descriptor lacks, the
dense slot mapping is modelled from the spec: it sends absent ids to the
reserved null cell, so the lookup yields null. -/
def object.get (o : object) (id : Nat) : Option Nat :=
  if DYNAMIX_MAX_MIXINS ≤ id then none
  else if type_has o.type_info id then
    ((o.mixin_data.getD []).getD (mixin_index o.type_info id) mixin_data_in_object.empty).buffer
  else none

/-- Result statuses of object::change_type_from (object.hpp). -/
inductive change_type_from_result where
  | success
  | bad_assign
  | bad_copy_construct
  deriving DecidableEq, Repr

/-- Buffer of the source cell at slot i, or none when no source array was
supplied (the source argument handling of object.cpp:203). -/
def source_buf (source : Option (List mixin_data_in_object)) (i : Nat) : Option Nat :=
  match source with
  | none => none
  | some s => (s.getD i mixin_data_in_object.empty).buffer

/-- object::make_mixin (object.cpp:222).  Allocates storage, binds the cell's
buffer and back-pointer, bumps the mixin live counter, and constructs the
value: default construction when source is none, copy construction from the
source value otherwise.  The allocator's copy_construct_mixin is modelled
from the spec (section 4.3): it fails exactly when the mixin lacks the
copy-construction capability, in which case make_mixin falls back to default
construction and reports false. -/
def make_mixin (addr : Nat) (mi : mixin_type_info) (source : Option Nat) :
    mixin_data_in_object × Bool × List Event :=
  match source with
  | none =>
    (⟨some mi.defaultVal, addr⟩, true,
      [Event.alloc_mixin mi.id, Event.inc_num_mixins mi.id, Event.construct mi.id])
  | some v =>
    if mi.copy_constructor then
      (⟨some v, addr⟩, true,
        [Event.alloc_mixin mi.id, Event.inc_num_mixins mi.id, Event.copy_construct mi.id])
    else
      (⟨some mi.defaultVal, addr⟩, false,
        [Event.alloc_mixin mi.id, Event.inc_num_mixins mi.id, Event.construct mi.id])

/-- object::delete_mixin (object.cpp:264): destroy the mixin, deallocate its
storage, decrement the mixin live counter and clear the cell.  t is the
descriptor used for slot lookup (the object's current _type_info at the call
site). -/
def delete_mixin (t : object_type_info) (cells : List mixin_data_in_object)
    (mi : mixin_type_info) : List mixin_data_in_object × List Event :=
  (cells.set (mixin_index t mi.id) mixin_data_in_object.empty,
    [Event.destroy mi.id, Event.dealloc_mixin mi.id, Event.dec_num_mixins mi.id])

/-- First loop of object::change_type_from (object.cpp:153-178): walk the old
descriptor's mixins; relocate each mixin the new descriptor keeps into the
new cell array (copy-assigning from the source when one is supplied and the
mixin supports assignment, recording bad_assign when it does not), and
delete each mixin the new descriptor drops.  Returns the final old cells,
new cells, status and event trace. -/
def change_type_loop_old (old_type new_type : object_type_info)
    (source : Option (List mixin_data_in_object)) :
    object_type_info → List mixin_data_in_object → List mixin_data_in_object →
      change_type_from_result →
      List mixin_data_in_object × List mixin_data_in_object × change_type_from_result × List Event
  | [], oldC, newC, res => (oldC, newC, res, [])
  | mi :: rest, oldC, newC, res =>
    if type_has new_type mi.id then
      let ni := mixin_index new_type mi.id
      let data0 := oldC.getD (mixin_index old_type mi.id) mixin_data_in_object.empty
      match source with
      | none =>
        change_type_loop_old old_type new_type source rest oldC (newC.set ni data0) res
      | some s =>
        if mi.copy_assignment then
          let data1 : mixin_data_in_object :=
            match data0.buffer, (s.getD ni mixin_data_in_object.empty).buffer with
            | some _, some v => ⟨some v, data0.owner⟩
            | _, _ => data0
          let r := change_type_loop_old old_type new_type source rest oldC (newC.set ni data1) res
          (r.1, r.2.1, r.2.2.1, Event.copy_assign mi.id :: r.2.2.2)
        else
          change_type_loop_old old_type new_type source rest oldC (newC.set ni data0)
            change_type_from_result.bad_assign
    else
      let d := delete_mixin old_type oldC mi
      let r := change_type_loop_old old_type new_type source rest d.1 newC res
      (r.1, r.2.1, r.2.2.1, d.2 ++ r.2.2.2)

/-- Second loop of object::change_type_from (object.cpp:198-209): walk the
new descriptor's mixins and make_mixin every slot whose buffer is still
unset; a failed copy construction records bad_copy_construct but processing
continues. -/
def change_type_loop_new (addr : Nat) (new_type : object_type_info)
    (source : Option (List mixin_data_in_object)) :
    object_type_info → List mixin_data_in_object → change_type_from_result →
      List mixin_data_in_object × change_type_from_result × List Event
  | [], cells, res => (cells, res, [])
  | mi :: rest, cells, res =>
    let i := mixin_index new_type mi.id
    if (cells.getD i mixin_data_in_object.empty).buffer.isSome then
      change_type_loop_new addr new_type source rest cells res
    else
      let m := make_mixin addr mi (source_buf source i)
      let res1 := if m.2.1 then res else change_type_from_result.bad_copy_construct
      let r := change_type_loop_new addr new_type source rest (cells.set i m.1) res1
      (r.1, r.2.1, m.2.2 ++ r.2.2)

/-- object::change_type_from (object.cpp:146-220): the retyping engine.
Allocates the new cell array, relocates or deletes the old mixins, releases
the old array, updates the live-object counters, swaps descriptor and cell
array, constructs the still-missing mixins, and rebinds the default message
implementation cell when the object is non-empty.  Allocating the new array
for the null descriptor is modelled from the spec as yielding the shared
sentinel array (a bare object points at the shared empty sentinel array). -/
def object.change_type_from (o : object) (new_type : object_type_info)
    (source : Option (List mixin_data_in_object)) :
    object × change_type_from_result × List Event :=
  let old_type := o.type_info
  let oldCells := o.mixin_data.getD []
  let newCells0 := List.replicate new_type.length mixin_data_in_object.empty
  let evAlloc : List Event := if new_type = [] then [] else [Event.alloc_mixin_data]
  let r1 := change_type_loop_old old_type new_type source old_type oldCells newCells0
    change_type_from_result.success
  let evDealloc : List Event := if o.mixin_data.isSome then [Event.dealloc_mixin_data] else []
  let evDec : List Event := if old_type = [] then [] else [Event.dec_num_objects]
  let evInc : List Event := if new_type = [] then [] else [Event.inc_num_objects]
  let r2 := change_type_loop_new o.addr new_type source new_type r1.2.1 r1.2.2.1
  let o1 : object :=
    { o with
      type_info := new_type
      mixin_data := if new_type = [] then none else some r2.1
      default_impl := if new_type = [] then none else some o.addr }
  (o1, r2.2.1, evAlloc ++ r1.2.2.2 ++ evDealloc ++ evDec ++ evInc ++ r2.2.2)

/-- object::change_type (object.cpp:141): retype with no source array. -/
def object.change_type (o : object) (new_type : object_type_info) :
    object × change_type_from_result × List Event :=
  o.change_type_from new_type none

/-- Loop of object::clear (object.cpp:119-122): delete every mixin of the
current descriptor in descriptor order. -/
def clear_loop (t : object_type_info) :
    object_type_info → List mixin_data_in_object → List mixin_data_in_object × List Event
  | [], cells => (cells, [])
  | mi :: rest, cells =>
    let d := delete_mixin t cells mi
    let r := clear_loop t rest d.1
    (r.1, d.2 ++ r.2)

/-- object::clear (object.cpp:117-134): delete every mixin, then, unless the
cell array is the shared sentinel, deallocate it and decrement the
descriptor's live-object counter; finally reset the descriptor to the null
sentinel.  Total (the C++ function is noexcept). -/
def object.clear (o : object) : object × List Event :=
  let r := clear_loop o.type_info o.type_info (o.mixin_data.getD [])
  let evTail : List Event :=
    if o.mixin_data.isSome then [Event.dealloc_mixin_data, Event.dec_num_objects] else []
  ({ o with type_info := [], mixin_data := none, default_impl := none }, r.2 ++ evTail)

/-- object::usurp (object.cpp:323-360): release this object's allocator,
take over the source's allocator (notifying it via on_move; its return value
is modelled from the spec as an allocator for the destination), take the
source's descriptor and cell array, rebind every cell's back-pointer to this
object's address, rebind the default message implementation cell when
non-empty, and reset the source to the sentinel state. -/
def object.usurp (o : object) (src : object) : object × object × List Event :=
  let ev1 : List Event :=
    match o.allocator with
    | some _ => [Event.release_alloc]
    | none => []
  let step2 : Option Nat × List Event :=
    match src.allocator with
    | some a => (some a, [Event.on_move, Event.on_set_to_object])
    | none => (none, [])
  let o1 : object :=
    { o with
      allocator := step2.1
      type_info := src.type_info
      mixin_data := src.mixin_data.map (fun cs => cs.map (fun c => ⟨c.buffer, o.addr⟩))
      default_impl := if src.type_info = [] then none else some o.addr }
  let src1 : object :=
    { src with type_info := [], mixin_data := none, allocator := none, default_impl := none }
  (o1, src1, ev1 ++ step2.2)

/-- object::operator=(object&&) (object.cpp:68-73): clear this object, then
usurp the source.  Returns the new states of destination and source and the
event trace. -/
def object.move_assign (o : object) (src : object) : object × object × List Event :=
  let c := o.clear
  let u := object.usurp c.1 src
  (u.1, u.2.1, c.2 ++ u.2.2)

/-- Failures thrown by the copy operations (exception.hpp names). -/
inductive copy_error where
  | bad_copy_construction
  | bad_copy_assignment
  deriving DecidableEq, Repr

/-- Translation of a non-success retype status into the failure thrown by
object::copy_from (object.cpp:400-404). -/
def status_to_error : change_type_from_result → Option copy_error
  | change_type_from_result.success => none
  | change_type_from_result.bad_assign => some copy_error.bad_copy_assignment
  | change_type_from_result.bad_copy_construct => some copy_error.bad_copy_construction

/-- Loop of object::copy_matching_from (object.cpp:409-418): walk the source
descriptor and copy-assign every mixin the destination also has; a mixin
lacking copy assignment throws bad_copy_assignment, which aborts the loop. -/
def copy_matching_loop (tdst tsrc : object_type_info) (srcCells : List mixin_data_in_object) :
    object_type_info → List mixin_data_in_object →
      List mixin_data_in_object × Option copy_error × List Event
  | [], cells => (cells, none, [])
  | mi :: rest, cells =>
    if type_has tdst mi.id then
      if mi.copy_assignment then
        let i := mixin_index tdst mi.id
        let c0 := cells.getD i mixin_data_in_object.empty
        let sv := (srcCells.getD (mixin_index tsrc mi.id) mixin_data_in_object.empty).buffer
        let c1 : mixin_data_in_object :=
          match c0.buffer, sv with
          | some _, some v => ⟨some v, c0.owner⟩
          | _, _ => c0
        let r := copy_matching_loop tdst tsrc srcCells rest (cells.set i c1)
        (r.1, r.2.1, Event.copy_assign mi.id :: r.2.2)
      else
        (cells, some copy_error.bad_copy_assignment, [])
    else
      copy_matching_loop tdst tsrc srcCells rest cells

/-- object::copy_matching_from (object.cpp:407-419). -/
def object.copy_matching_from (o : object) (src : object) :
    object × Option copy_error × List Event :=
  let r := copy_matching_loop o.type_info src.type_info (src.mixin_data.getD [])
    src.type_info (o.mixin_data.getD [])
  ({ o with mixin_data := if o.mixin_data.isSome then some r.1 else none }, r.2.1, r.2.2)

/-- object::copy_from (object.cpp:362-405): self-assignment is a no-op; an
empty destination first adopts the source's allocator (on_copy_construct is
modelled from the spec as returning an allocator for the destination); an
empty source reduces to clear; identical descriptors delegate to
copy_matching_from; otherwise the retyping engine runs with the source's
cell array and a non-success status is translated into a thrown failure. -/
def object.copy_from (o : object) (src : object) : object × Option copy_error × List Event :=
  if o.addr = src.addr then (o, none, [])
  else
    let step1 : object × List Event :=
      if o.type_info = [] then
        match src.allocator with
        | some a =>
          let evR : List Event :=
            match o.allocator with
            | some _ => [Event.release_alloc]
            | none => []
          ({ o with allocator := some a }, evR ++ [Event.on_copy_construct, Event.on_set_to_object])
        | none => (o, [])
      else (o, [])
    let o1 := step1.1
    if src.type_info = [] then
      let c := o1.clear
      (c.1, none, step1.2 ++ c.2)
    else if o1.type_info = src.type_info then
      let r := o1.copy_matching_from src
      (r.1, r.2.1, step1.2 ++ r.2.2)
    else
      let r := o1.change_type_from src.type_info (some (src.mixin_data.getD []))
      (r.1, status_to_error r.2.1, step1.2 ++ r.2.2)

/-- Loop of object::copyable (object.cpp:421-430). -/
def copyable_loop : object_type_info → Bool
  | [] => true
  | mi :: rest =>
    if !mi.copy_constructor then false
    else if !mi.copy_assignment then false
    else copyable_loop rest

/-- object::copyable (object.cpp:421-430). -/
def object.copyable (o : object) : Bool := copyable_loop o.type_info

/-- Cell-array invariant: every cell of a constructed object's array has its
buffer set (spec section 3, storage-cell invariant). -/
def cells_constructed : List mixin_data_in_object → Bool
  | [] => true
  | c :: rest => c.buffer.isSome && cells_constructed rest

/-- Well-formed object: distinct bounded mixin ids, and the cell array is
the sentinel exactly for the null descriptor, has one cell per slot, and
every cell is constructed. -/
def object.wf (o : object) : Bool :=
  distinct_ids o.type_info && ids_bounded o.type_info &&
  match o.mixin_data with
  | none => o.type_info.isEmpty
  | some cells =>
    !o.type_info.isEmpty && decide (cells.length = o.type_info.length) && cells_constructed cells

/-- Number of occurrences of an event in a trace. -/
def countEv : List Event → Event → Nat
  | [], _ => 0
  | x :: tr, e => (if x = e then 1 else 0) + countEv tr e

/-- Selector for destroy events. -/
def is_destroy : Event → Option Nat
  | Event.destroy i => some i
  | _ => none

/-- Selector for mixin-deallocation events. -/
def is_dealloc_mixin : Event → Option Nat
  | Event.dealloc_mixin i => some i
  | _ => none

/-- The ids destroyed by a trace, in order. -/
def destroyed_ids (tr : List Event) : List Nat := tr.filterMap is_destroy

/-- The ids whose mixin storage a trace deallocates, in order. -/
def dealloced_mixin_ids (tr : List Event) : List Nat := tr.filterMap is_dealloc_mixin

/-- Setting a slot and reading it back yields the written value. -/
theorem getD_set_self {α : Type} (l : List α) (i : Nat) (a d : α) (h : i < l.length) :
    (l.set i a).getD i d = a := by
  induction l generalizing i with
  | nil => simp at h
  | cons x xs ih =>
    cases i with
    | zero => simp
    | succ n =>
      rw [List.set_cons_succ, List.getD_cons_succ]
      exact ih n (by simpa using h)

/-- Setting one slot leaves every other slot unchanged. -/
theorem getD_set_ne {α : Type} (l : List α) (i j : Nat) (a d : α) (h : i ≠ j) :
    (l.set i a).getD j d = l.getD j d := by
  induction l generalizing i j with
  | nil => rfl
  | cons x xs ih =>
    cases i with
    | zero =>
      cases j with
      | zero => exact absurd rfl h
      | succ m => simp
    | succ n =>
      cases j with
      | zero => simp
      | succ m =>
        rw [List.set_cons_succ, List.getD_cons_succ, List.getD_cons_succ]
        exact ih n m (fun he => h (by omega))

/-- Reading any slot of a replicated array with the replicated element as
default yields that element. -/
theorem getD_replicate {α : Type} (n j : Nat) (c : α) :
    (List.replicate n c).getD j c = c := by
  induction n generalizing j with
  | zero => rfl
  | succ k ih =>
    cases j with
    | zero => rfl
    | succ m => simpa [List.replicate] using ih m

/-- An in-bounds getD is a member of the list. -/
theorem getD_mem {α : Type} (l : List α) (j : Nat) (d : α) (h : j < l.length) :
    l.getD j d ∈ l := by
  rw [List.getD_eq_get l d h]
  exact List.get_mem l _ _

/-- A mixin of the descriptor is found by type_has. -/
theorem type_has_of_mem (t : object_type_info) (m : mixin_type_info) (h : m ∈ t) :
    type_has t m.id = true := by
  induction t with
  | nil => cases h
  | cons x xs ih =>
    rcases List.mem_cons.mp h with h1 | h2
    · subst h1; simp [type_has]
    · simp [type_has, ih h2]

/-- The slot of a present id is in bounds. -/
theorem mixin_index_lt (t : object_type_info) (i : Nat) (h : type_has t i = true) :
    mixin_index t i < t.length := by
  induction t with
  | nil => simp [type_has] at h
  | cons x xs ih =>
    by_cases hx : x.id = i
    · simp [mixin_index, hx]
    · have hx' : (x.id == i) = false := beq_eq_false_iff_ne.mpr hx
      simp only [type_has, hx', Bool.false_or] at h
      have := ih h
      simp [mixin_index, hx']
      omega

/-- Two present ids with the same slot are equal. -/
theorem mixin_index_inj (t : object_type_info) (i j : Nat)
    (hi : type_has t i = true) (hj : type_has t j = true)
    (h : mixin_index t i = mixin_index t j) : i = j := by
  induction t with
  | nil => simp [type_has] at hi
  | cons x xs ih =>
    by_cases hxi : x.id = i <;> by_cases hxj : x.id = j
    · omega
    · have hxj' : (x.id == j) = false := beq_eq_false_iff_ne.mpr hxj
      have hxi' : (x.id == i) = true := beq_iff_eq.mpr hxi
      simp [mixin_index, hxi', hxj'] at h
    · have hxi' : (x.id == i) = false := beq_eq_false_iff_ne.mpr hxi
      have hxj' : (x.id == j) = true := beq_iff_eq.mpr hxj
      simp [mixin_index, hxi', hxj'] at h
    · have hxi' : (x.id == i) = false := beq_eq_false_iff_ne.mpr hxi
      have hxj' : (x.id == j) = false := beq_eq_false_iff_ne.mpr hxj
      simp only [type_has, hxi', hxj', Bool.false_or] at hi hj
      simp [mixin_index, hxi', hxj'] at h
      exact ih hi hj h

/-- In a distinct-id descriptor the head's id does not occur in the tail. -/
theorem distinct_ids_head (x : mixin_type_info) (xs : object_type_info)
    (hnd : distinct_ids (x :: xs) = true) : type_has xs x.id = false := by
  simp only [distinct_ids, Bool.and_eq_true, Bool.not_eq_true'] at hnd
  exact hnd.1

/-- The tail of a distinct-id descriptor has distinct ids. -/
theorem distinct_ids_tail (x : mixin_type_info) (xs : object_type_info)
    (hnd : distinct_ids (x :: xs) = true) : distinct_ids xs = true := by
  simp only [distinct_ids, Bool.and_eq_true, Bool.not_eq_true'] at hnd
  exact hnd.2

/-- In a distinct-id descriptor, the slot of the id stored at position j is
j itself (the id-to-slot mapping inverts the slot-to-id one). -/
theorem mixin_index_getD (t : object_type_info) (hnd : distinct_ids t = true)
    (j : Nat) (hj : j < t.length) :
    mixin_index t ((t.getD j default).id) = j := by
  induction t generalizing j with
  | nil => simp at hj
  | cons x xs ih =>
    cases j with
    | zero => simp [mixin_index]
    | succ m =>
      have hm : m < xs.length := by simpa using hj
      have hmem : xs.getD m default ∈ xs := getD_mem xs m default hm
      have hne : (x.id == (xs.getD m default).id) = false := by
        apply beq_eq_false_iff_ne.mpr
        intro he
        have := type_has_of_mem xs _ hmem
        rw [← he] at this
        rw [distinct_ids_head x xs hnd] at this
        cases this
      rw [List.getD_cons_succ]
      have hrec := ih (distinct_ids_tail x xs hnd) m hm
      simp at hne hrec
      simp [mixin_index, hne, hrec]

/-- make_mixin always leaves the cell constructed, also on copy failure
(object.cpp:256 falls back to default construction). -/
theorem make_mixin_buffer_isSome (addr : Nat) (mi : mixin_type_info) (sb : Option Nat) :
    ((make_mixin addr mi sb).1).buffer.isSome = true := by
  cases sb with
  | none => rfl
  | some v => cases h : mi.copy_constructor <;> simp [make_mixin, h]

/-- make_mixin binds the cell's back-pointer to the owning object. -/
theorem make_mixin_owner (addr : Nat) (mi : mixin_type_info) (sb : Option Nat) :
    ((make_mixin addr mi sb).1).owner = addr := by
  cases sb with
  | none => rfl
  | some v => cases h : mi.copy_constructor <;> simp [make_mixin, h]

/-- make_mixin reports failure exactly on a copy construction the mixin does
not support. -/
theorem make_mixin_fails (addr : Nat) (mi : mixin_type_info) (v : Nat)
    (hc : mi.copy_constructor = false) :
    (make_mixin addr mi (some v)).2.1 = false := by
  simp [make_mixin, hc]

/-- The first retype loop does not change the length of the new cell
array. -/
theorem loop_old_length (ot nt : object_type_info) (src : Option (List mixin_data_in_object))
    (l : object_type_info) (oldC newC : List mixin_data_in_object)
    (res : change_type_from_result) :
    (change_type_loop_old ot nt src l oldC newC res).2.1.length = newC.length := by
  induction l generalizing oldC newC res with
  | nil => rfl
  | cons mi rest ih =>
    simp only [change_type_loop_old]
    cases hh : type_has nt mi.id with
    | false =>
      exact ih _ _ _
    | true =>
      cases src with
      | none => exact Eq.trans (ih _ _ _) (List.length_set _ _ _)
      | some s =>
        cases ha : mi.copy_assignment with
        | false => exact Eq.trans (ih _ _ _) (List.length_set _ _ _)
        | true => exact Eq.trans (ih _ _ _) (List.length_set _ _ _)

/-- A new-array slot that no old mixin relocates into is untouched by the
first retype loop. -/
theorem loop_old_untouched (ot nt : object_type_info)
    (src : Option (List mixin_data_in_object)) (l : object_type_info)
    (oldC newC : List mixin_data_in_object) (res : change_type_from_result) (j : Nat)
    (h : ∀ mi ∈ l, type_has nt mi.id = true → mixin_index nt mi.id ≠ j) :
    (change_type_loop_old ot nt src l oldC newC res).2.1.getD j mixin_data_in_object.empty
      = newC.getD j mixin_data_in_object.empty := by
  induction l generalizing oldC newC res with
  | nil => rfl
  | cons mi rest ih =>
    have hrest : ∀ mi' ∈ rest, type_has nt mi'.id = true → mixin_index nt mi'.id ≠ j :=
      fun mi' hm => h mi' (List.mem_cons_of_mem mi hm)
    simp only [change_type_loop_old]
    cases hh : type_has nt mi.id with
    | false =>
      exact ih _ _ _ hrest
    | true =>
      have hne : mixin_index nt mi.id ≠ j := h mi (List.mem_cons_self mi rest) hh
      cases src with
      | none => exact Eq.trans (ih _ _ _ hrest) (getD_set_ne _ _ _ _ _ hne)
      | some s =>
        cases ha : mi.copy_assignment with
        | false => exact Eq.trans (ih _ _ _ hrest) (getD_set_ne _ _ _ _ _ hne)
        | true => exact Eq.trans (ih _ _ _ hrest) (getD_set_ne _ _ _ _ _ hne)

/-- The second retype loop does not change the length of the cell array. -/
theorem loop_new_length (addr : Nat) (nt : object_type_info)
    (src : Option (List mixin_data_in_object)) (l : object_type_info)
    (cells : List mixin_data_in_object) (res : change_type_from_result) :
    (change_type_loop_new addr nt src l cells res).1.length = cells.length := by
  induction l generalizing cells res with
  | nil => rfl
  | cons mi rest ih =>
    simp only [change_type_loop_new]
    cases hb : ((cells.getD (mixin_index nt mi.id) mixin_data_in_object.empty).buffer).isSome with
    | true => exact ih _ _
    | false => exact Eq.trans (ih _ _) (List.length_set _ _ _)

/-- The second retype loop leaves every already-constructed slot
unchanged. -/
theorem loop_new_preserve (addr : Nat) (nt : object_type_info)
    (src : Option (List mixin_data_in_object)) (l : object_type_info)
    (cells : List mixin_data_in_object) (res : change_type_from_result) (j : Nat)
    (h : ((cells.getD j mixin_data_in_object.empty).buffer).isSome = true) :
    (change_type_loop_new addr nt src l cells res).1.getD j mixin_data_in_object.empty
      = cells.getD j mixin_data_in_object.empty := by
  induction l generalizing cells res with
  | nil => rfl
  | cons mi rest ih =>
    simp only [change_type_loop_new]
    cases hb : ((cells.getD (mixin_index nt mi.id) mixin_data_in_object.empty).buffer).isSome with
    | true =>
      exact ih _ _ h
    | false =>
      have hij : mixin_index nt mi.id ≠ j := by
        intro he
        rw [he, h] at hb
        cases hb
      have hset : (cells.set (mixin_index nt mi.id)
            (make_mixin addr mi (source_buf src (mixin_index nt mi.id))).1).getD j
            mixin_data_in_object.empty
          = cells.getD j mixin_data_in_object.empty := getD_set_ne _ _ _ _ _ hij
      exact Eq.trans (ih _ _ (by rw [hset]; exact h)) hset

/-- The second retype loop constructs every still-unset slot of the new
descriptor: default construction without a source, copy construction (with
default fallback) from the source's slot otherwise. -/
theorem loop_new_constructs (addr : Nat) (nt : object_type_info)
    (src : Option (List mixin_data_in_object)) (l : object_type_info)
    (cells : List mixin_data_in_object) (res : change_type_from_result)
    (m : mixin_type_info) (hm : m ∈ l)
    (hsub : ∀ x ∈ l, type_has nt x.id = true)
    (hnd : distinct_ids l = true)
    (hlen : cells.length = nt.length)
    (hempty : (cells.getD (mixin_index nt m.id) mixin_data_in_object.empty).buffer = none) :
    (change_type_loop_new addr nt src l cells res).1.getD (mixin_index nt m.id)
        mixin_data_in_object.empty
      = (make_mixin addr m (source_buf src (mixin_index nt m.id))).1 := by
  induction l generalizing cells res with
  | nil => cases hm
  | cons mi rest ih =>
    rcases List.mem_cons.mp hm with rfl | hm'
    · have hb : ((cells.getD (mixin_index nt m.id) mixin_data_in_object.empty).buffer).isSome
          = false := by rw [hempty]; rfl
      have hilt : mixin_index nt m.id < cells.length := by
        rw [hlen]
        exact mixin_index_lt nt m.id (hsub m (List.mem_cons_self m rest))
      have hgot : (cells.set (mixin_index nt m.id)
            (make_mixin addr m (source_buf src (mixin_index nt m.id))).1).getD
            (mixin_index nt m.id) mixin_data_in_object.empty
          = (make_mixin addr m (source_buf src (mixin_index nt m.id))).1 :=
        getD_set_self _ _ _ _ hilt
      simp only [change_type_loop_new]
      rw [hb]
      exact Eq.trans
        (loop_new_preserve addr nt src rest _ _ _ (by rw [hgot]; exact make_mixin_buffer_isSome _ _ _))
        hgot
    · have hmi_ne : mi.id ≠ m.id := by
        intro he
        have := type_has_of_mem rest m hm'
        rw [← he] at this
        rw [distinct_ids_head mi rest hnd] at this
        cases this
      have hij : mixin_index nt mi.id ≠ mixin_index nt m.id := by
        intro he
        exact hmi_ne (mixin_index_inj nt mi.id m.id (hsub mi (List.mem_cons_self mi rest))
          (hsub m hm) he)
      have hsubr : ∀ x ∈ rest, type_has nt x.id = true :=
        fun x hx => hsub x (List.mem_cons_of_mem mi hx)
      simp only [change_type_loop_new]
      cases hb : ((cells.getD (mixin_index nt mi.id) mixin_data_in_object.empty).buffer).isSome with
      | true =>
        exact ih cells res hm' hsubr (distinct_ids_tail mi rest hnd) hlen hempty
      | false =>
        have hset : (cells.set (mixin_index nt mi.id)
              (make_mixin addr mi (source_buf src (mixin_index nt mi.id))).1).getD
              (mixin_index nt m.id) mixin_data_in_object.empty
            = cells.getD (mixin_index nt m.id) mixin_data_in_object.empty :=
          getD_set_ne _ _ _ _ _ hij
        exact ih _ _ hm' hsubr (distinct_ids_tail mi rest hnd)
          (by rw [List.length_set]; exact hlen) (by rw [hset]; exact hempty)

/-- Once the status is bad_copy_construct it stays so: later iterations never
reset it (failure does not stop processing, and success of a later mixin does
not mask it). -/
theorem loop_new_res_absorb (addr : Nat) (nt : object_type_info)
    (src : Option (List mixin_data_in_object)) (l : object_type_info)
    (cells : List mixin_data_in_object) :
    (change_type_loop_new addr nt src l cells change_type_from_result.bad_copy_construct).2.1
      = change_type_from_result.bad_copy_construct := by
  induction l generalizing cells with
  | nil => rfl
  | cons mi rest ih =>
    simp only [change_type_loop_new]
    cases hb : ((cells.getD (mixin_index nt mi.id) mixin_data_in_object.empty).buffer).isSome with
    | true =>
      exact ih _
    | false =>
      cases hok : (make_mixin addr mi (source_buf src (mixin_index nt mi.id))).2.1 with
      | true => exact ih _
      | false => exact ih _

/-- If some mixin of the remaining list has an unset slot, a constructed
source value and no copy constructor, the second loop ends with status
bad_copy_construct. -/
theorem loop_new_res_bad (addr : Nat) (nt : object_type_info)
    (src : Option (List mixin_data_in_object)) (l : object_type_info)
    (cells : List mixin_data_in_object) (res : change_type_from_result)
    (m : mixin_type_info) (hm : m ∈ l)
    (hsub : ∀ x ∈ l, type_has nt x.id = true)
    (hnd : distinct_ids l = true)
    (hlen : cells.length = nt.length)
    (hempty : (cells.getD (mixin_index nt m.id) mixin_data_in_object.empty).buffer = none)
    (hsrc : (source_buf src (mixin_index nt m.id)).isSome = true)
    (hctor : m.copy_constructor = false) :
    (change_type_loop_new addr nt src l cells res).2.1
      = change_type_from_result.bad_copy_construct := by
  induction l generalizing cells res with
  | nil => cases hm
  | cons mi rest ih =>
    rcases List.mem_cons.mp hm with rfl | hm'
    · have hb : ((cells.getD (mixin_index nt m.id) mixin_data_in_object.empty).buffer).isSome
          = false := by rw [hempty]; rfl
      simp only [change_type_loop_new]
      rw [hb]
      rcases Option.isSome_iff_exists.mp hsrc with ⟨v, hv⟩
      rw [hv]
      have hfail := make_mixin_fails addr m v hctor
      rw [hfail]
      exact loop_new_res_absorb _ _ _ _ _
    · have hmi_ne : mi.id ≠ m.id := by
        intro he
        have := type_has_of_mem rest m hm'
        rw [← he] at this
        rw [distinct_ids_head mi rest hnd] at this
        cases this
      have hij : mixin_index nt mi.id ≠ mixin_index nt m.id := by
        intro he
        exact hmi_ne (mixin_index_inj nt mi.id m.id (hsub mi (List.mem_cons_self mi rest))
          (hsub m hm) he)
      have hsubr : ∀ x ∈ rest, type_has nt x.id = true :=
        fun x hx => hsub x (List.mem_cons_of_mem mi hx)
      simp only [change_type_loop_new]
      cases hb : ((cells.getD (mixin_index nt mi.id) mixin_data_in_object.empty).buffer).isSome with
      | true =>
        exact ih cells res hm' hsubr (distinct_ids_tail mi rest hnd) hlen hempty
      | false =>
        have hset : (cells.set (mixin_index nt mi.id)
              (make_mixin addr mi (source_buf src (mixin_index nt mi.id))).1).getD
              (mixin_index nt m.id) mixin_data_in_object.empty
            = cells.getD (mixin_index nt m.id) mixin_data_in_object.empty :=
          getD_set_ne _ _ _ _ _ hij
        exact ih _ _ hm' hsubr (distinct_ids_tail mi rest hnd)
          (by rw [List.length_set]; exact hlen) (by rw [hset]; exact hempty)

/-- After the second loop over the whole new descriptor every slot is
constructed. -/
theorem loop_new_all_some (addr : Nat) (nt : object_type_info)
    (src : Option (List mixin_data_in_object)) (cells : List mixin_data_in_object)
    (res : change_type_from_result)
    (hnd : distinct_ids nt = true) (hlen : cells.length = nt.length)
    (j : Nat) (hj : j < nt.length) :
    (((change_type_loop_new addr nt src nt cells res).1.getD j
        mixin_data_in_object.empty).buffer).isSome = true := by
  have hmem : nt.getD j default ∈ nt := getD_mem nt j default (by omega)
  have hidx : mixin_index nt ((nt.getD j default).id) = j := mixin_index_getD nt hnd j hj
  cases hopt : (cells.getD j mixin_data_in_object.empty).buffer with
  | some v =>
    rw [loop_new_preserve addr nt src nt cells res j (by rw [hopt]; rfl), hopt]
    rfl
  | none =>
    rw [← hidx]
    rw [loop_new_constructs addr nt src nt cells res (nt.getD j default) hmem
      (fun x hx => type_has_of_mem nt x hx) hnd hlen (by rw [hidx]; exact hopt)]
    exact make_mixin_buffer_isSome _ _ _

/-- Pointwise characterization of the cell invariant. -/
theorem cells_constructed_of_pointwise (cs : List mixin_data_in_object)
    (h : ∀ j, j < cs.length →
      ((cs.getD j mixin_data_in_object.empty).buffer).isSome = true) :
    cells_constructed cs = true := by
  induction cs with
  | nil => rfl
  | cons c rest ih =>
    have h0 := h 0 (by simp)
    rw [List.getD_cons_zero] at h0
    simp only [cells_constructed, Bool.and_eq_true]
    refine ⟨h0, ih fun j hj => ?_⟩
    have := h (j + 1) (by simpa using hj)
    rw [List.getD_cons_succ] at this
    exact this

/-- Every id of a bounded descriptor is below the sentinel. -/
theorem ids_bounded_mem (t : object_type_info) (h : ids_bounded t = true)
    (m : mixin_type_info) (hm : m ∈ t) : m.id < DYNAMIX_MAX_MIXINS := by
  induction t with
  | nil => cases hm
  | cons x xs ih =>
    simp only [ids_bounded, Bool.and_eq_true, decide_eq_true_eq] at h
    rcases List.mem_cons.mp hm with rfl | hm'
    · exact h.1
    · exact ih h.2 hm'

/-- Unfolded form of the object returned by change_type_from: descriptor. -/
theorem change_type_from_fst_type (o : object) (nt : object_type_info)
    (src : Option (List mixin_data_in_object)) :
    (o.change_type_from nt src).1.type_info = nt := rfl

/-- Unfolded form of the object returned by change_type_from: cell array. -/
theorem change_type_from_fst_data (o : object) (nt : object_type_info)
    (src : Option (List mixin_data_in_object)) :
    (o.change_type_from nt src).1.mixin_data
      = if nt = [] then none
        else some (change_type_loop_new o.addr nt src nt
          (change_type_loop_old o.type_info nt src o.type_info (o.mixin_data.getD [])
            (List.replicate nt.length mixin_data_in_object.empty)
            change_type_from_result.success).2.1
          (change_type_loop_old o.type_info nt src o.type_info (o.mixin_data.getD [])
            (List.replicate nt.length mixin_data_in_object.empty)
            change_type_from_result.success).2.2.1).1 := rfl

/-- Unfolded form of the object returned by clear. -/
theorem clear_fst (o : object) :
    (o.clear).1 = { o with type_info := [], mixin_data := none, default_impl := none } := rfl

/-- Unfolded form of the trace returned by clear. -/
theorem clear_snd (o : object) :
    (o.clear).2
      = (clear_loop o.type_info o.type_info (o.mixin_data.getD [])).2
        ++ (if o.mixin_data.isSome then [Event.dealloc_mixin_data, Event.dec_num_objects]
            else []) := rfl

/-- has is false for every id on an object with the null descriptor. -/
theorem has_nil_type (o : object) (h : o.type_info = []) (id : Nat) : o.has id = false := by
  unfold object.has
  rw [h]
  by_cases hle : DYNAMIX_MAX_MIXINS ≤ id
  · rw [if_pos hle]
  · rw [if_neg hle]; rfl

/-- get is null for every id on an object with the null descriptor. -/
theorem get_nil_type (o : object) (h : o.type_info = []) (id : Nat) : o.get id = none := by
  unfold object.get
  rw [h]
  by_cases hle : DYNAMIX_MAX_MIXINS ≤ id
  · rw [if_pos hle]
  · rw [if_neg hle]; rfl

/-- Event count distributes over trace concatenation. -/
theorem countEv_append (tr1 tr2 : List Event) (e : Event) :
    countEv (tr1 ++ tr2) e = countEv tr1 e + countEv tr2 e := by
  induction tr1 with
  | nil => rw [List.nil_append]; exact (Nat.zero_add _).symm
  | cons x tr ih =>
    show (if x = e then 1 else 0) + countEv (tr ++ tr2) e
      = ((if x = e then 1 else 0) + countEv tr e) + countEv tr2 e
    rw [ih]
    omega

/-- A trace not containing an event counts it zero times. -/
theorem countEv_not_mem (tr : List Event) (e : Event) (h : ∀ x ∈ tr, x ≠ e) :
    countEv tr e = 0 := by
  induction tr with
  | nil => rfl
  | cons x tr ih =>
    simp only [countEv]
    rw [if_neg (h x (List.mem_cons_self x tr))]
    rw [ih fun y hy => h y (List.mem_cons_of_mem x hy)]

/-- Every event of the clear loop is a destroy, a mixin deallocation or a
mixin-counter decrement. -/
theorem clear_loop_events (t : object_type_info) (l : object_type_info)
    (cells : List mixin_data_in_object) (e : Event)
    (he : e ∈ (clear_loop t l cells).2) :
    ∃ i, e = Event.destroy i ∨ e = Event.dealloc_mixin i ∨ e = Event.dec_num_mixins i := by
  induction l generalizing cells with
  | nil => cases he
  | cons mi rest ih =>
    rcases List.mem_append.mp he with h1 | h2
    · have h1' : e ∈ [Event.destroy mi.id, Event.dealloc_mixin mi.id,
          Event.dec_num_mixins mi.id] := h1
      simp only [List.mem_cons, List.not_mem_nil, or_false] at h1'
      rcases h1' with rfl | rfl | rfl
      · exact ⟨mi.id, Or.inl rfl⟩
      · exact ⟨mi.id, Or.inr (Or.inl rfl)⟩
      · exact ⟨mi.id, Or.inr (Or.inr rfl)⟩
    · exact ih _ h2

/-- clear destroys exactly the current descriptor's mixins, in descriptor
order. -/
theorem clear_loop_destroyed (t : object_type_info) (l : object_type_info)
    (cells : List mixin_data_in_object) :
    destroyed_ids (clear_loop t l cells).2 = l.map (fun mi => mi.id) := by
  induction l generalizing cells with
  | nil => rfl
  | cons mi rest ih =>
    show destroyed_ids
        ([Event.destroy mi.id, Event.dealloc_mixin mi.id, Event.dec_num_mixins mi.id]
          ++ (clear_loop t rest (cells.set (mixin_index t mi.id) mixin_data_in_object.empty)).2)
      = List.map (fun mi => mi.id) (mi :: rest)
    unfold destroyed_ids
    rw [List.filterMap_append]
    have h1 := ih (cells.set (mixin_index t mi.id) mixin_data_in_object.empty)
    unfold destroyed_ids at h1
    rw [h1]
    rfl

/-- clear deallocates exactly the current descriptor's mixin storage, in
descriptor order. -/
theorem clear_loop_dealloced (t : object_type_info) (l : object_type_info)
    (cells : List mixin_data_in_object) :
    dealloced_mixin_ids (clear_loop t l cells).2 = l.map (fun mi => mi.id) := by
  induction l generalizing cells with
  | nil => rfl
  | cons mi rest ih =>
    show dealloced_mixin_ids
        ([Event.destroy mi.id, Event.dealloc_mixin mi.id, Event.dec_num_mixins mi.id]
          ++ (clear_loop t rest (cells.set (mixin_index t mi.id) mixin_data_in_object.empty)).2)
      = List.map (fun mi => mi.id) (mi :: rest)
    unfold dealloced_mixin_ids
    rw [List.filterMap_append]
    have h1 := ih (cells.set (mixin_index t mi.id) mixin_data_in_object.empty)
    unfold dealloced_mixin_ids at h1
    rw [h1]
    rfl

/-- A well-formed object with the null descriptor uses the sentinel cell
array. -/
theorem wf_data_none (o : object) (hwf : o.wf = true) (h : o.type_info = []) :
    o.mixin_data = none := by
  unfold object.wf at hwf
  cases hd : o.mixin_data with
  | none => rfl
  | some cells =>
    rw [hd, h] at hwf
    simp at hwf

/-- A well-formed non-empty object owns a real cell array. -/
theorem wf_data_some (o : object) (hwf : o.wf = true) (h : ¬ o.type_info = []) :
    o.mixin_data.isSome = true := by
  unfold object.wf at hwf
  cases hd : o.mixin_data with
  | some cells => rfl
  | none =>
    rw [hd] at hwf
    simp at hwf
    exact absurd hwf.2 h

/-- The clear loop never deallocates the cell array. -/
theorem clear_loop_count_dealloc_data (t : object_type_info) (l : object_type_info)
    (cells : List mixin_data_in_object) :
    countEv (clear_loop t l cells).2 Event.dealloc_mixin_data = 0 :=
  countEv_not_mem _ _ fun x hx => by
    rcases clear_loop_events t l cells x hx with ⟨i, rfl | rfl | rfl⟩ <;> intro hc <;> cases hc

/-- The clear loop never decrements the live-object counter. -/
theorem clear_loop_count_dec_objects (t : object_type_info) (l : object_type_info)
    (cells : List mixin_data_in_object) :
    countEv (clear_loop t l cells).2 Event.dec_num_objects = 0 :=
  countEv_not_mem _ _ fun x hx => by
    rcases clear_loop_events t l cells x hx with ⟨i, rfl | rfl | rfl⟩ <;> intro hc <;> cases hc

/-- The clear loop never copy-assigns. -/
theorem clear_loop_count_copy_assign (t : object_type_info) (l : object_type_info)
    (cells : List mixin_data_in_object) (id : Nat) :
    countEv (clear_loop t l cells).2 (Event.copy_assign id) = 0 :=
  countEv_not_mem _ _ fun x hx => by
    rcases clear_loop_events t l cells x hx with ⟨i, rfl | rfl | rfl⟩ <;> intro hc <;> cases hc

/-- The clear loop never copy-constructs. -/
theorem clear_loop_count_copy_construct (t : object_type_info) (l : object_type_info)
    (cells : List mixin_data_in_object) (id : Nat) :
    countEv (clear_loop t l cells).2 (Event.copy_construct id) = 0 :=
  countEv_not_mem _ _ fun x hx => by
    rcases clear_loop_events t l cells x hx with ⟨i, rfl | rfl | rfl⟩ <;> intro hc <;> cases hc

/-- clear destroys exactly the descriptor's mixins, in canonical order. -/
theorem clear_destroyed (o : object) :
    destroyed_ids (o.clear).2 = o.type_info.map (fun mi => mi.id) := by
  rw [clear_snd]
  unfold destroyed_ids
  rw [List.filterMap_append]
  have h1 := clear_loop_destroyed o.type_info o.type_info (o.mixin_data.getD [])
  unfold destroyed_ids at h1
  rw [h1]
  cases hd : o.mixin_data.isSome
  all_goals
    show List.map (fun mi => mi.id) o.type_info ++ ([] : List Nat)
      = List.map (fun mi => mi.id) o.type_info
    exact List.append_nil _

/-- clear deallocates exactly the descriptor's mixin storage, in canonical
order. -/
theorem clear_dealloced (o : object) :
    dealloced_mixin_ids (o.clear).2 = o.type_info.map (fun mi => mi.id) := by
  rw [clear_snd]
  unfold dealloced_mixin_ids
  rw [List.filterMap_append]
  have h1 := clear_loop_dealloced o.type_info o.type_info (o.mixin_data.getD [])
  unfold dealloced_mixin_ids at h1
  rw [h1]
  cases hd : o.mixin_data.isSome
  all_goals
    show List.map (fun mi => mi.id) o.type_info ++ ([] : List Nat)
      = List.map (fun mi => mi.id) o.type_info
    exact List.append_nil _

/-- clear deallocates the cell array exactly when it is not the sentinel. -/
theorem clear_count_dealloc_data (o : object) :
    countEv (o.clear).2 Event.dealloc_mixin_data
      = if o.mixin_data.isSome then 1 else 0 := by
  rw [clear_snd, countEv_append, clear_loop_count_dealloc_data]
  cases hd : o.mixin_data.isSome
  · rfl
  · rfl

/-- clear decrements the live-object counter exactly when the cell array is
not the sentinel. -/
theorem clear_count_dec_objects (o : object) :
    countEv (o.clear).2 Event.dec_num_objects
      = if o.mixin_data.isSome then 1 else 0 := by
  rw [clear_snd, countEv_append, clear_loop_count_dec_objects]
  cases hd : o.mixin_data.isSome
  · rfl
  · rfl

/-- C1: for every retype invocation over any old object, new descriptor and
optional source cell array, the engine is total and the result status is one
of success, bad_assign and bad_copy_construct (the Lean function neither
raises nor diverges, mirroring the status-only contract of the C++ engine);
a per-component failure does not stop processing: the returned object always
carries the new descriptor, is well formed, and every component of the new
descriptor is constructed (its get yields a value). -/
theorem C1_change_type_total (o : object) (nt : object_type_info)
    (src : Option (List mixin_data_in_object))
    (hnd : distinct_ids nt = true) (hbd : ids_bounded nt = true) :
    ((o.change_type_from nt src).2.1 = change_type_from_result.success ∨
      (o.change_type_from nt src).2.1 = change_type_from_result.bad_assign ∨
      (o.change_type_from nt src).2.1 = change_type_from_result.bad_copy_construct) ∧
    (o.change_type_from nt src).1.type_info = nt ∧
    (∀ m ∈ nt, ((o.change_type_from nt src).1.get m.id).isSome = true) ∧
    (o.change_type_from nt src).1.wf = true := by
  have hlen1 : (change_type_loop_old o.type_info nt src o.type_info (o.mixin_data.getD [])
      (List.replicate nt.length mixin_data_in_object.empty)
      change_type_from_result.success).2.1.length = nt.length := by
    rw [loop_old_length]
    exact List.length_replicate _ _
  refine ⟨?_, rfl, ?_, ?_⟩
  · cases hres : (o.change_type_from nt src).2.1 with
    | success => exact Or.inl rfl
    | bad_assign => exact Or.inr (Or.inl rfl)
    | bad_copy_construct => exact Or.inr (Or.inr rfl)
  · intro m hm
    have hmax : m.id < DYNAMIX_MAX_MIXINS := ids_bounded_mem nt hbd m hm
    have hhas : type_has nt m.id = true := type_has_of_mem nt m hm
    have hnt : ¬ nt = [] := List.ne_nil_of_mem hm
    unfold object.get
    rw [change_type_from_fst_type, change_type_from_fst_data]
    rw [if_neg (Nat.not_le.mpr hmax), if_pos hhas, if_neg hnt]
    rw [Option.getD_some]
    exact loop_new_all_some o.addr nt src _ _ hnd hlen1 (mixin_index nt m.id)
      (mixin_index_lt nt m.id hhas)
  · by_cases hnt : nt = []
    · subst hnt
      rfl
    · have hlen2 : (change_type_loop_new o.addr nt src nt
          (change_type_loop_old o.type_info nt src o.type_info (o.mixin_data.getD [])
            (List.replicate nt.length mixin_data_in_object.empty)
            change_type_from_result.success).2.1
          (change_type_loop_old o.type_info nt src o.type_info (o.mixin_data.getD [])
            (List.replicate nt.length mixin_data_in_object.empty)
            change_type_from_result.success).2.2.1).1.length = nt.length :=
        Eq.trans (loop_new_length _ _ _ _ _ _) hlen1
      have hcon : cells_constructed (change_type_loop_new o.addr nt src nt
          (change_type_loop_old o.type_info nt src o.type_info (o.mixin_data.getD [])
            (List.replicate nt.length mixin_data_in_object.empty)
            change_type_from_result.success).2.1
          (change_type_loop_old o.type_info nt src o.type_info (o.mixin_data.getD [])
            (List.replicate nt.length mixin_data_in_object.empty)
            change_type_from_result.success).2.2.1).1 = true := by
        apply cells_constructed_of_pointwise
        intro j hj
        rw [hlen2] at hj
        exact loop_new_all_some o.addr nt src _ _ hnd hlen1 j hj
      have hie : nt.isEmpty = false := by
        cases nt with
        | nil => exact absurd rfl hnt
        | cons a l => rfl
      unfold object.wf
      rw [change_type_from_fst_type, change_type_from_fst_data, if_neg hnt]
      simp [hnd, hbd, hie, hlen2, hcon]

/-- C4: clear is total (never fails), destroys every component of the current
descriptor in the descriptor's canonical order, deallocates every
component's storage, deallocates the cell array and decrements the
descriptor's live-object counter exactly when the object was not already the
empty sentinel, and leaves the object with the empty sentinel descriptor and
cell array, on which has and get fail for every id. -/
theorem C4_clear_spec (o : object) (hwf : o.wf = true) :
    (o.clear).1.type_info = [] ∧
    (o.clear).1.mixin_data = none ∧
    (∀ id, (o.clear).1.has id = false) ∧
    (∀ id, (o.clear).1.get id = none) ∧
    destroyed_ids (o.clear).2 = o.type_info.map (fun mi => mi.id) ∧
    dealloced_mixin_ids (o.clear).2 = o.type_info.map (fun mi => mi.id) ∧
    countEv (o.clear).2 Event.dealloc_mixin_data = (if o.type_info = [] then 0 else 1) ∧
    countEv (o.clear).2 Event.dec_num_objects = (if o.type_info = [] then 0 else 1) := by
  refine ⟨rfl, rfl, fun id => has_nil_type _ rfl id, fun id => get_nil_type _ rfl id,
    clear_destroyed o, clear_dealloced o, ?_, ?_⟩
  · have hcnt := clear_count_dealloc_data o
    by_cases hnil : o.type_info = []
    · rw [wf_data_none o hwf hnil] at hcnt
      rw [hcnt, if_pos hnil]
      rfl
    · rw [wf_data_some o hwf hnil] at hcnt
      rw [hcnt, if_neg hnil]
      rfl
  · have hcnt := clear_count_dec_objects o
    by_cases hnil : o.type_info = []
    · rw [wf_data_none o hwf hnil] at hcnt
      rw [hcnt, if_pos hnil]
      rfl
    · rw [wf_data_some o hwf hnil] at hcnt
      rw [hcnt, if_neg hnil]
      rfl

/-- C8: for every id at or above the maximum-id sentinel, has returns false
and get returns null; and on an empty object, has returns false and get
returns null for every id, without failure. -/
theorem C8_has_get_bounds (o : object) (id : Nat) :
    (DYNAMIX_MAX_MIXINS ≤ id → o.has id = false ∧ o.get id = none) ∧
    (o.empty = true → o.has id = false ∧ o.get id = none) := by
  constructor
  · intro hle
    constructor
    · unfold object.has
      rw [if_pos hle]
    · unfold object.get
      rw [if_pos hle]
  · intro he
    have hnil : o.type_info = [] := by
      unfold object.empty at he
      simpa using he
    exact ⟨has_nil_type o hnil id, get_nil_type o hnil id⟩

/-- C9: copy-assigning an object from itself is a no-op: the self check at
the top of copy_from returns immediately, leaving descriptor, cell array,
allocator and every component unchanged, with no failure and no side
effects. -/
theorem C9_self_copy_noop (o : object) : o.copy_from o = (o, none, []) := by
  unfold object.copy_from
  rw [if_pos rfl]

/-- Sample mixin descriptor with both copy capabilities. -/
def mixinA : mixin_type_info := ⟨0, true, true, 10⟩

/-- Second sample mixin descriptor with both copy capabilities. -/
def mixinB : mixin_type_info := ⟨1, true, true, 20⟩

/-- Third sample mixin descriptor with both copy capabilities. -/
def mixinC : mixin_type_info := ⟨2, true, true, 30⟩

/-- Sample mixin descriptor lacking copy assignment. -/
def mixinNA : mixin_type_info := ⟨3, true, false, 40⟩

/-- Sample mixin descriptor lacking copy construction. -/
def mixinNC : mixin_type_info := ⟨4, false, true, 50⟩

/-- Sample object owning mixins A and B with stored values 7 and 8. -/
def objAB : object := ⟨1, [mixinA, mixinB], some [⟨some 7, 1⟩, ⟨some 8, 1⟩], some 1, none⟩

/-- Sample empty object. -/
def objEmpty : object := ⟨3, [], none, none, none⟩

/-- Witness instantiating C1 at a concrete retype. -/
theorem C1_witness :
    distinct_ids [mixinA, mixinC] = true ∧ ids_bounded [mixinA, mixinC] = true ∧
    (objAB.change_type_from [mixinA, mixinC] none).1.type_info = [mixinA, mixinC] ∧
    (objAB.change_type_from [mixinA, mixinC] none).1.wf = true :=
  ⟨by decide, by decide,
    (C1_change_type_total objAB [mixinA, mixinC] none (by decide) (by decide)).2.1,
    (C1_change_type_total objAB [mixinA, mixinC] none (by decide) (by decide)).2.2.2⟩

/-- Witness instantiating C4 at a concrete object. -/
theorem C4_witness :
    objAB.wf = true ∧
    (objAB.clear).1.type_info = [] ∧
    destroyed_ids (objAB.clear).2 = objAB.type_info.map (fun mi => mi.id) ∧
    countEv (objAB.clear).2 Event.dec_num_objects
      = (if objAB.type_info = [] then 0 else 1) :=
  ⟨by decide,
    (C4_clear_spec objAB (by decide)).1,
    (C4_clear_spec objAB (by decide)).2.2.2.2.1,
    (C4_clear_spec objAB (by decide)).2.2.2.2.2.2.2⟩

/-- Witness instantiating C8 at an out-of-range id and at an empty object. -/
theorem C8_witness :
    (DYNAMIX_MAX_MIXINS ≤ 999 ∧ objAB.has 999 = false ∧ objAB.get 999 = none) ∧
    (objEmpty.empty = true ∧ objEmpty.has 5 = false ∧ objEmpty.get 5 = none) :=
  ⟨⟨by decide, ((C8_has_get_bounds objAB 999).1 (by decide)).1,
      ((C8_has_get_bounds objAB 999).1 (by decide)).2⟩,
    ⟨by decide, ((C8_has_get_bounds objEmpty 5).2 (by decide)).1,
      ((C8_has_get_bounds objEmpty 5).2 (by decide)).2⟩⟩

/-- C2: retyping an object with composition a,b (no source) to a,c leaves
component a's stored value unchanged with its cell merely relocated (no
construct, copy-construct or destroy event for a), default-constructs c
freshly (exactly one construct event for c), and destroys b exactly once,
paired with exactly one deallocation of b's storage. -/
theorem C2_retype_frame (addr w1 w2 va vb : Nat) (a b c : mixin_type_info)
    (dfl al : Option Nat)
    (hab : a.id ≠ b.id) (hac : a.id ≠ c.id) (hbc : b.id ≠ c.id)
    (ha : a.id < DYNAMIX_MAX_MIXINS) (hc : c.id < DYNAMIX_MAX_MIXINS) :
    ((object.mk addr [a, b] (some [⟨some va, w1⟩, ⟨some vb, w2⟩]) dfl al).change_type_from
        [a, c] none).1.get a.id = some va ∧
    ((object.mk addr [a, b] (some [⟨some va, w1⟩, ⟨some vb, w2⟩]) dfl al).change_type_from
        [a, c] none).1.get c.id = some c.defaultVal ∧
    countEv ((object.mk addr [a, b] (some [⟨some va, w1⟩, ⟨some vb, w2⟩]) dfl
        al).change_type_from [a, c] none).2.2 (Event.destroy b.id) = 1 ∧
    countEv ((object.mk addr [a, b] (some [⟨some va, w1⟩, ⟨some vb, w2⟩]) dfl
        al).change_type_from [a, c] none).2.2 (Event.dealloc_mixin b.id) = 1 ∧
    countEv ((object.mk addr [a, b] (some [⟨some va, w1⟩, ⟨some vb, w2⟩]) dfl
        al).change_type_from [a, c] none).2.2 (Event.destroy a.id) = 0 ∧
    countEv ((object.mk addr [a, b] (some [⟨some va, w1⟩, ⟨some vb, w2⟩]) dfl
        al).change_type_from [a, c] none).2.2 (Event.construct a.id) = 0 ∧
    countEv ((object.mk addr [a, b] (some [⟨some va, w1⟩, ⟨some vb, w2⟩]) dfl
        al).change_type_from [a, c] none).2.2 (Event.copy_construct a.id) = 0 ∧
    countEv ((object.mk addr [a, b] (some [⟨some va, w1⟩, ⟨some vb, w2⟩]) dfl
        al).change_type_from [a, c] none).2.2 (Event.construct c.id) = 1 := by
  have e2 : (a.id == b.id) = false := beq_eq_false_iff_ne.mpr hab
  have e3 : (a.id == c.id) = false := beq_eq_false_iff_ne.mpr hac
  have e4 : (c.id == b.id) = false := beq_eq_false_iff_ne.mpr fun h => hbc h.symm
  have hna : ¬ DYNAMIX_MAX_MIXINS ≤ a.id := Nat.not_le.mpr ha
  have hnc : ¬ DYNAMIX_MAX_MIXINS ≤ c.id := Nat.not_le.mpr hc
  have hba : b.id ≠ a.id := fun h => hab h.symm
  have hca : c.id ≠ a.id := fun h => hac h.symm
  have hcb : c.id ≠ b.id := fun h => hbc h.symm
  refine ⟨?_, ?_, ?_, ?_, ?_, ?_, ?_, ?_⟩ <;>
    simp [object.change_type_from, change_type_loop_old, change_type_loop_new, delete_mixin,
      make_mixin, source_buf, object.get, countEv, type_has, mixin_index,
      mixin_data_in_object.empty, e2, e3, e4, hna, hnc, hab, hac, hbc, hba, hca, hcb]

/-- Witness instantiating C2 at concrete mixins and values. -/
theorem C2_witness :
    mixinA.id ≠ mixinB.id ∧ mixinA.id ≠ mixinC.id ∧ mixinB.id ≠ mixinC.id ∧
    mixinA.id < DYNAMIX_MAX_MIXINS ∧ mixinC.id < DYNAMIX_MAX_MIXINS ∧
    ((object.mk 1 [mixinA, mixinB] (some [⟨some 7, 1⟩, ⟨some 8, 1⟩]) (some 1)
        none).change_type_from [mixinA, mixinC] none).1.get mixinA.id = some 7 ∧
    countEv ((object.mk 1 [mixinA, mixinB] (some [⟨some 7, 1⟩, ⟨some 8, 1⟩]) (some 1)
        none).change_type_from [mixinA, mixinC] none).2.2 (Event.destroy mixinB.id) = 1 :=
  ⟨by decide, by decide, by decide, by decide, by decide,
    (C2_retype_frame 1 1 1 7 8 mixinA mixinB mixinC (some 1) none (by decide) (by decide)
      (by decide) (by decide) (by decide)).1,
    (C2_retype_frame 1 1 1 7 8 mixinA mixinB mixinC (some 1) none (by decide) (by decide)
      (by decide) (by decide) (by decide)).2.2.1⟩

/-- C5: copy-assigning an object with composition a,b from one with
composition a leaves the destination with exactly composition a (has b is
false afterwards), destroying b exactly once with exactly one deallocation
of its storage; and copy_from delegates to the component-by-component
matching copy when the descriptors are identical and to the retyping engine
when they differ. -/
theorem C5_copy_from_shrink :
    (∀ (addr1 addr2 w1 w2 u1 va vb ua : Nat) (a b : mixin_type_info)
        (dfl1 dfl2 al1 al2 : Option Nat),
      addr2 ≠ addr1 → a.id ≠ b.id →
      ((object.mk addr2 [a, b] (some [⟨some va, w1⟩, ⟨some vb, w2⟩]) dfl2 al2).copy_from
          (object.mk addr1 [a] (some [⟨some ua, u1⟩]) dfl1 al1)).1.type_info = [a] ∧
      ((object.mk addr2 [a, b] (some [⟨some va, w1⟩, ⟨some vb, w2⟩]) dfl2 al2).copy_from
          (object.mk addr1 [a] (some [⟨some ua, u1⟩]) dfl1 al1)).1.has b.id = false ∧
      countEv ((object.mk addr2 [a, b] (some [⟨some va, w1⟩, ⟨some vb, w2⟩]) dfl2
          al2).copy_from (object.mk addr1 [a] (some [⟨some ua, u1⟩]) dfl1 al1)).2.2
        (Event.destroy b.id) = 1 ∧
      countEv ((object.mk addr2 [a, b] (some [⟨some va, w1⟩, ⟨some vb, w2⟩]) dfl2
          al2).copy_from (object.mk addr1 [a] (some [⟨some ua, u1⟩]) dfl1 al1)).2.2
        (Event.dealloc_mixin b.id) = 1) ∧
    (∀ o src : object, ¬ o.addr = src.addr → o.type_info = src.type_info →
      ¬ src.type_info = [] → o.copy_from src = o.copy_matching_from src) ∧
    (∀ o src : object, ¬ o.addr = src.addr → ¬ o.type_info = [] →
      ¬ src.type_info = [] → ¬ o.type_info = src.type_info →
      o.copy_from src
        = ((o.change_type_from src.type_info (some (src.mixin_data.getD []))).1,
          status_to_error (o.change_type_from src.type_info
            (some (src.mixin_data.getD []))).2.1,
          (o.change_type_from src.type_info (some (src.mixin_data.getD []))).2.2)) := by
  refine ⟨?_, ?_, ?_⟩
  · intro addr1 addr2 w1 w2 u1 va vb ua a b dfl1 dfl2 al1 al2 hne hab
    have e2 : (a.id == b.id) = false := beq_eq_false_iff_ne.mpr hab
    have hba : b.id ≠ a.id := fun h => hab h.symm
    cases hAs : a.copy_assignment <;>
      refine ⟨?_, ?_, ?_, ?_⟩ <;>
        simp [object.copy_from, object.change_type_from, change_type_loop_old,
          change_type_loop_new, delete_mixin, make_mixin, source_buf, object.has, countEv,
          type_has, mixin_index, mixin_data_in_object.empty, status_to_error, e2, hAs, hne,
          hab, hba]
  · intro o src hne heq hs
    have hoe : ¬ o.type_info = [] := by rw [heq]; exact hs
    simp [object.copy_from, hne, hoe, hs, heq]
  · intro o src hne hoe hs hd
    simp [object.copy_from, hne, hoe, hs, hd]

/-- Witness instantiating C5's scenario at concrete mixins and values. -/
theorem C5_witness :
    (2 : Nat) ≠ 1 ∧ mixinA.id ≠ mixinB.id ∧
    ((object.mk 2 [mixinA, mixinB] (some [⟨some 7, 1⟩, ⟨some 8, 1⟩]) (some 2)
        none).copy_from (object.mk 1 [mixinA] (some [⟨some 5, 1⟩]) (some 1)
        none)).1.type_info = [mixinA] ∧
    countEv ((object.mk 2 [mixinA, mixinB] (some [⟨some 7, 1⟩, ⟨some 8, 1⟩]) (some 2)
        none).copy_from (object.mk 1 [mixinA] (some [⟨some 5, 1⟩]) (some 1)
        none)).2.2 (Event.destroy mixinB.id) = 1 :=
  ⟨by decide, by decide,
    (C5_copy_from_shrink.1 1 2 1 1 1 7 8 5 mixinA mixinB (some 1) (some 2) none none
      (by decide) (by decide)).1,
    (C5_copy_from_shrink.1 1 2 1 1 1 7 8 5 mixinA mixinB (some 1) (some 2) none none
      (by decide) (by decide)).2.2.1⟩

/-- A well-formed object's descriptor has distinct, bounded ids. -/
theorem wf_type_wf (o : object) (hwf : o.wf = true) :
    distinct_ids o.type_info = true ∧ ids_bounded o.type_info = true := by
  unfold object.wf at hwf
  cases hd : o.mixin_data <;> rw [hd] at hwf <;>
    simp only [Bool.and_eq_true] at hwf <;> exact hwf.1

/-- C3: retyping a well-formed object from its composition A to any B and
back to A, with no external source, leaves every component of A absent from
B in its default-constructed state: state is not preserved across a round
trip through a composition that removes the component. -/
theorem C3_roundtrip_default (o : object) (B : object_type_info) (hwf : o.wf = true)
    (m : mixin_type_info) (hm : m ∈ o.type_info) (hB : type_has B m.id = false) :
    (((o.change_type_from B none).1).change_type_from o.type_info none).1.get m.id
      = some m.defaultVal := by
  obtain ⟨hnd, hbd⟩ := wf_type_wf o hwf
  have hhasA : type_has o.type_info m.id = true := type_has_of_mem _ _ hm
  have hmax : m.id < DYNAMIX_MAX_MIXINS := ids_bounded_mem _ hbd m hm
  have hAne : ¬ o.type_info = [] := List.ne_nil_of_mem hm
  have huntouch : (change_type_loop_old (o.change_type_from B none).1.type_info o.type_info
        none (o.change_type_from B none).1.type_info
        ((o.change_type_from B none).1.mixin_data.getD [])
        (List.replicate o.type_info.length mixin_data_in_object.empty)
        change_type_from_result.success).2.1.getD (mixin_index o.type_info m.id)
        mixin_data_in_object.empty
      = mixin_data_in_object.empty := by
    rw [loop_old_untouched]
    · exact getD_replicate _ _ _
    · intro mi hmi hmiA he
      have hid : mi.id = m.id := mixin_index_inj o.type_info mi.id m.id hmiA hhasA he
      have hBmi : type_has B mi.id = true := by
        have hmem : mi ∈ B := by
          rw [change_type_from_fst_type] at hmi
          exact hmi
        exact type_has_of_mem B mi hmem
      rw [hid, hB] at hBmi
      cases hBmi
  have hlenold : (change_type_loop_old (o.change_type_from B none).1.type_info o.type_info
        none (o.change_type_from B none).1.type_info
        ((o.change_type_from B none).1.mixin_data.getD [])
        (List.replicate o.type_info.length mixin_data_in_object.empty)
        change_type_from_result.success).2.1.length = o.type_info.length := by
    rw [loop_old_length]
    exact List.length_replicate _ _
  have hcon := loop_new_constructs (o.change_type_from B none).1.addr o.type_info none
    o.type_info
    (change_type_loop_old (o.change_type_from B none).1.type_info o.type_info none
      (o.change_type_from B none).1.type_info
      ((o.change_type_from B none).1.mixin_data.getD [])
      (List.replicate o.type_info.length mixin_data_in_object.empty)
      change_type_from_result.success).2.1
    (change_type_loop_old (o.change_type_from B none).1.type_info o.type_info none
      (o.change_type_from B none).1.type_info
      ((o.change_type_from B none).1.mixin_data.getD [])
      (List.replicate o.type_info.length mixin_data_in_object.empty)
      change_type_from_result.success).2.2.1
    m hm (fun x hx => type_has_of_mem _ _ hx) hnd hlenold (by rw [huntouch]; rfl)
  unfold object.get
  rw [change_type_from_fst_type, change_type_from_fst_data]
  rw [if_neg (Nat.not_le.mpr hmax), if_pos hhasA, if_neg hAne, Option.getD_some]
  rw [hcon]
  rfl

/-- Witness instantiating C3 at a concrete round trip. -/
theorem C3_witness :
    objAB.wf = true ∧ mixinB ∈ objAB.type_info ∧ type_has [mixinA] mixinB.id = false ∧
    (((objAB.change_type_from [mixinA] none).1).change_type_from objAB.type_info
        none).1.get mixinB.id = some mixinB.defaultVal :=
  ⟨by decide, by decide, by decide,
    C3_roundtrip_default objAB [mixinA] (by decide) mixinB (by decide) (by decide)⟩

/-- The clear loop never emits an allocator move notification. -/
theorem clear_loop_count_on_move (t : object_type_info) (l : object_type_info)
    (cells : List mixin_data_in_object) :
    countEv (clear_loop t l cells).2 Event.on_move = 0 :=
  countEv_not_mem _ _ fun x hx => by
    rcases clear_loop_events t l cells x hx with ⟨i, rfl | rfl | rfl⟩ <;> intro hc <;> cases hc

/-- clear never emits an allocator move notification. -/
theorem clear_count_on_move (o : object) : countEv (o.clear).2 Event.on_move = 0 := by
  rw [clear_snd, countEv_append, clear_loop_count_on_move]
  cases hd : o.mixin_data.isSome <;> rfl

/-- Unfolded form of the usurp trace. -/
theorem usurp_snd (o src : object) :
    (object.usurp o src).2.2
      = (match o.allocator with
          | some _ => [Event.release_alloc]
          | none => [])
        ++ (match src.allocator with
          | some _ => [Event.on_move, Event.on_set_to_object]
          | none => []) := by
  simp only [object.usurp]
  cases hoa : o.allocator <;> cases hsa : src.allocator <;> rfl

/-- The destination allocator field after clear. -/
theorem clear_fst_alloc (o : object) : (o.clear).1.allocator = o.allocator := rfl

/-- C6 counterexample: the claim says either object holding a non-default
allocator is notified via on_move, but when only the destination holds an
allocator the code notifies it via release and emits no on_move at all. -/
theorem C6_counterexample :
    (object.mk 1 [] none none (some 7)).allocator.isSome = true ∧
    countEv ((object.mk 1 [] none none (some 7)).move_assign
      (object.mk 2 [mixinA] (some [⟨some 5, 2⟩]) (some 2) none)).2.2 Event.on_move = 0 := by
  decide

/-- C6 (amended): after move-assigning, the source is empty (sentinel
descriptor and sentinel cell array), the destination holds the source's
prior descriptor and cell array with every cell's back-pointer rebound to
the destination's address (never the source's), the default dispatch cell is
rebound when non-empty, and the source's allocator — not the destination's —
is notified via on_move exactly when the source held one (a destination
allocator is released instead). -/
theorem C6_move_assign (o src : object) (hne : o.addr ≠ src.addr) :
    (o.move_assign src).2.1.type_info = [] ∧
    (o.move_assign src).2.1.mixin_data = none ∧
    (o.move_assign src).1.type_info = src.type_info ∧
    (o.move_assign src).1.mixin_data
      = src.mixin_data.map (fun cs => cs.map fun c => ⟨c.buffer, o.addr⟩) ∧
    (∀ cells, (o.move_assign src).1.mixin_data = some cells →
      ∀ c ∈ cells, c.owner = o.addr ∧ c.owner ≠ src.addr) ∧
    (¬ src.type_info = [] → (o.move_assign src).1.default_impl = some o.addr) ∧
    countEv (o.move_assign src).2.2 Event.on_move
      = (if src.allocator.isSome then 1 else 0) ∧
    countEv (o.move_assign src).2.2 Event.release_alloc
      = (if o.allocator.isSome then 1 else 0) := by
  refine ⟨rfl, rfl, rfl, rfl, ?_, ?_, ?_, ?_⟩
  · intro cells hcells c hc
    rw [show (o.move_assign src).1.mixin_data
        = src.mixin_data.map (fun cs => cs.map fun c => ⟨c.buffer, o.addr⟩) from rfl] at hcells
    cases hd : src.mixin_data with
    | none =>
      rw [hd] at hcells
      cases hcells
    | some cs =>
      rw [hd] at hcells
      rw [Option.map_some'] at hcells
      have hc2 := Option.some.inj hcells
      subst hc2
      rcases List.mem_map.mp hc with ⟨c0, hc0, rfl⟩
      exact ⟨rfl, fun h => hne h⟩
  · intro hs
    show (if src.type_info = [] then none else some o.addr) = some o.addr
    rw [if_neg hs]
  · have hm : (o.move_assign src).2.2 = (o.clear).2 ++ (object.usurp (o.clear).1 src).2.2 :=
      rfl
    rw [hm, countEv_append, clear_count_on_move, usurp_snd, clear_fst_alloc]
    cases hoa : o.allocator <;> cases hsa : src.allocator <;> rfl
  · have hm : (o.move_assign src).2.2 = (o.clear).2 ++ (object.usurp (o.clear).1 src).2.2 :=
      rfl
    have hclr : countEv (o.clear).2 Event.release_alloc = 0 := by
      rw [clear_snd, countEv_append]
      rw [countEv_not_mem _ _ fun x hx => by
        rcases clear_loop_events _ _ _ x hx with ⟨i, rfl | rfl | rfl⟩ <;> intro hc <;> cases hc]
      cases hd : o.mixin_data.isSome <;> rfl
    rw [hm, countEv_append, hclr, usurp_snd, clear_fst_alloc]
    cases hoa : o.allocator <;> cases hsa : src.allocator <;> rfl

/-- Witness instantiating C6 at concrete objects with an allocator on the
source. -/
theorem C6_witness :
    (1 : Nat) ≠ 2 ∧
    ((object.mk 1 [] none none none).move_assign
      (object.mk 2 [mixinA] (some [⟨some 5, 2⟩]) (some 2) (some 9))).2.1.type_info = [] ∧
    countEv ((object.mk 1 [] none none none).move_assign
        (object.mk 2 [mixinA] (some [⟨some 5, 2⟩]) (some 2) (some 9))).2.2 Event.on_move
      = (if (object.mk 2 [mixinA] (some [⟨some 5, 2⟩]) (some 2)
          (some 9)).allocator.isSome then 1 else 0) :=
  ⟨by decide,
    (C6_move_assign (object.mk 1 [] none none none)
      (object.mk 2 [mixinA] (some [⟨some 5, 2⟩]) (some 2) (some 9)) (by decide)).1,
    (C6_move_assign (object.mk 1 [] none none none)
      (object.mk 2 [mixinA] (some [⟨some 5, 2⟩]) (some 2) (some 9))
      (by decide)).2.2.2.2.2.2.1⟩

/-- Every cell of a constructed array has its buffer set. -/
theorem cells_constructed_mem (cs : List mixin_data_in_object)
    (h : cells_constructed cs = true) (c : mixin_data_in_object) (hc : c ∈ cs) :
    c.buffer.isSome = true := by
  induction cs with
  | nil => cases hc
  | cons x rest ih =>
    simp only [cells_constructed, Bool.and_eq_true] at h
    rcases List.mem_cons.mp hc with rfl | hc'
    · exact h.1
    · exact ih h.2 hc'

/-- A well-formed non-empty object's cell array has one constructed cell per
slot. -/
theorem wf_cells (o : object) (hwf : o.wf = true) (h : ¬ o.type_info = []) :
    (o.mixin_data.getD []).length = o.type_info.length ∧
    cells_constructed (o.mixin_data.getD []) = true := by
  unfold object.wf at hwf
  cases hd : o.mixin_data with
  | none =>
    rw [hd] at hwf
    simp at hwf
    exact absurd hwf.2 h
  | some cells =>
    rw [hd] at hwf
    rw [Option.getD_some]
    simp only [Bool.and_eq_true, decide_eq_true_eq] at hwf
    exact ⟨hwf.2.1.2, hwf.2.2⟩

/-- Unfolded form of the status returned by change_type_from. -/
theorem change_type_from_res (o : object) (nt : object_type_info)
    (src : Option (List mixin_data_in_object)) :
    (o.change_type_from nt src).2.1
      = (change_type_loop_new o.addr nt src nt
          (change_type_loop_old o.type_info nt src o.type_info (o.mixin_data.getD [])
            (List.replicate nt.length mixin_data_in_object.empty)
            change_type_from_result.success).2.1
          (change_type_loop_old o.type_info nt src o.type_info (o.mixin_data.getD [])
            (List.replicate nt.length mixin_data_in_object.empty)
            change_type_from_result.success).2.2.1).2.1 := rfl

/-- The copyable loop accepts exactly the descriptors whose every mixin has
both copy capabilities. -/
theorem copyable_loop_iff (t : object_type_info) :
    copyable_loop t = true ↔
      ∀ m ∈ t, m.copy_constructor = true ∧ m.copy_assignment = true := by
  induction t with
  | nil => simp [copyable_loop]
  | cons mi rest ih =>
    cases hc : mi.copy_constructor <;> cases ha : mi.copy_assignment <;>
      simp [copyable_loop, hc, ha, ih]

/-- C7 counterexample: the claim says a copy of any non-copyable object
yields bad_copy_construct, but an object whose only mixin merely lacks copy
assignment is non-copyable while copy-constructing it succeeds: the engine
returns success and copy_from does not fail. -/
theorem C7_counterexample :
    (object.mk 2 [mixinNA] (some [⟨some 5, 2⟩]) (some 2) none).copyable = false ∧
    ((object.mk 1 [] none none none).change_type_from [mixinNA]
        (some [⟨some 5, 2⟩])).2.1 = change_type_from_result.success ∧
    ((object.mk 1 [] none none none).copy_from
        (object.mk 2 [mixinNA] (some [⟨some 5, 2⟩]) (some 2) none)).2.1 = none := by
  decide

/-- C7 (amended): copyable returns true iff every component of the current
descriptor has both the copy-construct and the copy-assign capability; and
copy-constructing from a well-formed object one of whose components lacks
copy construction yields the bad_copy_construct status from the engine
rather than faulting (a component lacking only copy assignment does not by
itself make the copy construction report bad_copy_construct). -/
theorem C7_copyable_spec :
    (∀ o : object, o.copyable = true ↔
      ∀ m ∈ o.type_info, m.copy_constructor = true ∧ m.copy_assignment = true) ∧
    (∀ (dst src : object) (m : mixin_type_info),
      dst.type_info = [] → src.wf = true → m ∈ src.type_info →
      m.copy_constructor = false →
      (dst.change_type_from src.type_info (some (src.mixin_data.getD []))).2.1
        = change_type_from_result.bad_copy_construct) := by
  constructor
  · intro o
    exact copyable_loop_iff o.type_info
  · intro dst src m hdst hwf hm hctor
    have hnd := (wf_type_wf src hwf).1
    have hne : ¬ src.type_info = [] := List.ne_nil_of_mem hm
    obtain ⟨hlenc, hcon⟩ := wf_cells src hwf hne
    have hhas : type_has src.type_info m.id = true := type_has_of_mem _ _ hm
    have hjlt : mixin_index src.type_info m.id < (src.mixin_data.getD []).length := by
      rw [hlenc]
      exact mixin_index_lt _ _ hhas
    have hsrc : (source_buf (some (src.mixin_data.getD []))
        (mixin_index src.type_info m.id)).isSome = true := by
      unfold source_buf
      exact cells_constructed_mem _ hcon _ (getD_mem _ _ _ hjlt)
    rw [change_type_from_res, hdst]
    exact loop_new_res_bad dst.addr src.type_info (some (src.mixin_data.getD []))
      src.type_info _ _ m hm (fun x hx => type_has_of_mem _ _ hx) hnd
      (List.length_replicate _ _)
      (congrArg mixin_data_in_object.buffer (getD_replicate _ _ _)) hsrc hctor

/-- Witness instantiating C7 at a concrete non-copy-constructible mixin. -/
theorem C7_witness :
    (object.mk 1 [] none none none).type_info = [] ∧
    (object.mk 2 [mixinNC] (some [⟨some 5, 2⟩]) (some 2) none).wf = true ∧
    mixinNC ∈ (object.mk 2 [mixinNC] (some [⟨some 5, 2⟩]) (some 2) none).type_info ∧
    mixinNC.copy_constructor = false ∧
    ((object.mk 1 [] none none none).change_type_from
        (object.mk 2 [mixinNC] (some [⟨some 5, 2⟩]) (some 2) none).type_info
        (some ((object.mk 2 [mixinNC] (some [⟨some 5, 2⟩]) (some 2)
          none).mixin_data.getD []))).2.1 = change_type_from_result.bad_copy_construct :=
  ⟨rfl, by decide, by decide, by decide,
    C7_copyable_spec.2 (object.mk 1 [] none none none)
      (object.mk 2 [mixinNC] (some [⟨some 5, 2⟩]) (some 2) none) mixinNC rfl (by decide)
      (by decide) (by decide)⟩

/-- clear never copy-assigns. -/
theorem clear_count_copy_assign (o : object) (id : Nat) :
    countEv (o.clear).2 (Event.copy_assign id) = 0 := by
  rw [clear_snd, countEv_append, clear_loop_count_copy_assign]
  cases hd : o.mixin_data.isSome <;> rfl

/-- clear never copy-constructs. -/
theorem clear_count_copy_construct (o : object) (id : Nat) :
    countEv (o.clear).2 (Event.copy_construct id) = 0 := by
  rw [clear_snd, countEv_append, clear_loop_count_copy_construct]
  cases hd : o.mixin_data.isSome <;> rfl

/-- Characterization of copy_from with an empty source object: it reduces to
clearing the destination (whose allocator may first be replaced by the
source's) with only allocator notifications besides the clear events. -/
theorem copy_from_empty_eq (o src : object) (hne : ¬ o.addr = src.addr)
    (hsrc : src.type_info = []) :
    ∃ (o1 : object) (ev : List Event),
      o.copy_from src = ((o1.clear).1, none, ev ++ (o1.clear).2) ∧
      o1.type_info = o.type_info ∧
      (∀ id, countEv ev (Event.copy_assign id) = 0) ∧
      (∀ id, countEv ev (Event.copy_construct id) = 0) ∧
      (¬ o.type_info = [] → o1 = o ∧ ev = []) := by
  by_cases hoe : o.type_info = []
  · cases hsal : src.allocator with
    | none =>
      refine ⟨o, [], ?_, rfl, fun id => rfl, fun id => rfl, fun h => absurd hoe h⟩
      simp [object.copy_from, hne, hsrc, hoe, hsal]
    | some a =>
      cases hoal : o.allocator with
      | none =>
        refine ⟨{ o with allocator := some a },
          [Event.on_copy_construct, Event.on_set_to_object], ?_, rfl, fun id => rfl,
          fun id => rfl, fun h => absurd hoe h⟩
        simp [object.copy_from, hne, hsrc, hoe, hsal, hoal]
      | some b =>
        refine ⟨{ o with allocator := some a },
          [Event.release_alloc, Event.on_copy_construct, Event.on_set_to_object], ?_, rfl,
          fun id => rfl, fun id => rfl, fun h => absurd hoe h⟩
        simp [object.copy_from, hne, hsrc, hoe, hsal, hoal]
  · refine ⟨o, [], ?_, rfl, fun id => rfl, fun id => rfl, fun h => ⟨rfl, rfl⟩⟩
    simp [object.copy_from, hne, hsrc, hoe]

/-- C10: copy-assigning from an empty source is equivalent to clear: the
destination ends in the empty sentinel state (null descriptor, sentinel cell
array, unbound dispatch cell, has false everywhere), no failure is raised
even when the destination's components lack copy capabilities, and no copy
function is ever invoked on this path (no copy-assign or copy-construct
event); for a non-empty destination the result is exactly that of clear. -/
theorem C10_copy_from_empty (o src : object) (hne : ¬ o.addr = src.addr)
    (hsrc : src.type_info = []) :
    (o.copy_from src).1.type_info = [] ∧
    (o.copy_from src).1.mixin_data = none ∧
    (o.copy_from src).1.default_impl = none ∧
    (o.copy_from src).2.1 = none ∧
    (∀ id, (o.copy_from src).1.has id = false) ∧
    (∀ id, countEv (o.copy_from src).2.2 (Event.copy_assign id) = 0) ∧
    (∀ id, countEv (o.copy_from src).2.2 (Event.copy_construct id) = 0) ∧
    (¬ o.type_info = [] → o.copy_from src = ((o.clear).1, none, (o.clear).2)) := by
  obtain ⟨o1, ev, heq, hty, hca, hcc, hrest⟩ := copy_from_empty_eq o src hne hsrc
  refine ⟨?_, ?_, ?_, ?_, ?_, ?_, ?_, ?_⟩
  · rw [heq]
    rfl
  · rw [heq]
    rfl
  · rw [heq]
    rfl
  · rw [heq]
  · intro id
    rw [heq]
    exact has_nil_type _ rfl id
  · intro id
    rw [heq]
    show countEv (ev ++ (o1.clear).2) (Event.copy_assign id) = 0
    rw [countEv_append, hca id, clear_count_copy_assign]
  · intro id
    rw [heq]
    show countEv (ev ++ (o1.clear).2) (Event.copy_construct id) = 0
    rw [countEv_append, hcc id, clear_count_copy_construct]
  · intro h
    obtain ⟨h1, h2⟩ := hrest h
    rw [heq, h1, h2]
    rw [List.nil_append]

/-- Witness instantiating C10 at a concrete non-empty destination and empty
source. -/
theorem C10_witness :
    ¬ (objAB.addr = objEmpty.addr) ∧ objEmpty.type_info = [] ∧
    (objAB.copy_from objEmpty).1.type_info = [] ∧
    (objAB.copy_from objEmpty).2.1 = none :=
  ⟨by decide, rfl,
    (C10_copy_from_empty objAB objEmpty (by decide) rfl).1,
    (C10_copy_from_empty objAB objEmpty (by decide) rfl).2.2.2.1⟩

end Dynamix
